import Mathlib

/-!
Verification of the assignment-workflow backend.

This file gives a shallow embedding of the core of the service: the
credential codec (`app/auth.py`), the access guard (`app/dependencies.py`),
and the user/admin flows (`app/services/user_service.py`,
`app/services/admin_service.py`), together with theorems settling the
specification claims.

Modelling conventions:
- The document store is a pair of lists plus a counter supplying fresh
  store-assigned ids; `find_one` is `List.find?`, `find(..).to_list` is
  `List.filter` (with the `length=100` cap of the driver call rendered as
  `List.take 100`), `insert_one` appends.
- Fallible handlers return `Except HTTPError`; raising `HTTPException`
  is `.error`.
- The bcrypt and JWT libraries are external collaborators; they are modelled
  by executable functions satisfying their documented contracts (injective
  password hashing with exact verification; signed tokens that decode to
  their claims iff the signature is intact and the expiry is in the future).
- Time is a `Nat` of seconds passed explicitly where the code reads the
  clock.
-/

/-- HTTP-style error raised by a failing operation, mirroring
`HTTPException(status_code=..., detail=...)`. -/
structure HTTPError where
  status : Nat
  detail : String
  deriving DecidableEq, Repr

/-- A document of the users collection. Registration inserts only `username`,
`password` and `role`; `is_active = none` models the field being absent from
the document (the guard reads it as `current_user.get("is_active", True)`).
`_id` is the store-assigned object id. -/
structure UserDoc where
  _id : Nat
  username : String
  password : String
  role : String
  is_active : Option Bool
  deriving DecidableEq, Repr

/-- A document of the assignments collection, with the fields inserted by
`upload_assignment`: the owner (`user_id` is the store id of the caller), the
free-text `userId` and `task`, the denormalized admin name and id, the status
and the creation timestamp. -/
structure AssignmentDoc where
  _id : Nat
  user_id : Nat
  userId : String
  task : String
  admin_id : Nat
  admin : String
  status : String
  timestamp : Nat
  deriving DecidableEq, Repr

/-- The document store: both collections plus a counter supplying the fresh
object id that the next `insert_one` assigns. -/
structure DB where
  users : List UserDoc
  assignments : List AssignmentDoc
  nextId : Nat
  deriving DecidableEq, Repr

/-- Model of the external bcrypt hasher (`pwd_context.hash`): an injective
tagging, so that verification succeeds exactly on the hashed password. -/
def get_password_hash (password : String) : String :=
  "bcrypt$" ++ password

/-- Model of the external bcrypt verifier (`pwd_context.verify`): true iff
the plain password matches the hash. -/
def verify_password (plain hashed : String) : Bool :=
  hashed == get_password_hash plain

/-- Claims payload of a token; the services only ever set `sub` (the
username). -/
structure Claims where
  sub : String
  deriving DecidableEq, Repr

/-- A signed token: its claims, its expiry time `exp` (seconds), and whether
its signature verifies under the process secret. `sig_ok = false` models a
tampered or foreign token; `jwt.encode` always signs correctly, so
`create_access_token` produces `sig_ok = true`. -/
structure Token where
  payload : Claims
  exp : Nat
  sig_ok : Bool
  deriving DecidableEq, Repr

/-- Embedding of `create_access_token(data, expires_delta)`: the expiry is
`now + (expires_delta or timedelta(minutes=ACCESS_TOKEN_EXPIRE_MINUTES))`.
`cfgMinutes` is the configured `settings.access_token_expire_minutes`;
`expires_delta` is in seconds. Python `or` falls back to the configured
default when `expires_delta` is `None` or a zero timedelta. -/
def create_access_token (cfgMinutes : Nat) (data : Claims)
    (expires_delta : Option Nat) (now : Nat) : Token :=
  let d :=
    match expires_delta with
    | some d => if d ≠ 0 then d else cfgMinutes * 60
    | none => cfgMinutes * 60
  { payload := data, exp := now + d, sig_ok := true }

/-- Embedding of `decode_access_token(token)`: `jwt.decode` verifies the
signature and the expiry; the wrapper catches `ExpiredSignatureError` and
`InvalidTokenError` and returns `None` for both, so the result is an
`Option` and never an exception. -/
def decode_access_token (token : Token) (now : Nat) : Option Claims :=
  if token.sig_ok = false then none
  else if token.exp ≤ now then none
  else some token.payload

/-- The single 401 raised by `get_current_user` on any token or lookup
failure (`credentials_exception` in `app/dependencies.py`). -/
def credentialsException : HTTPError :=
  { status := 401, detail := "Could not validate credentials" }

/-- Embedding of `get_current_user`: decode the token, look the `sub`
username up in the users collection, and raise the one
`credentials_exception` when decoding fails or no user matches. -/
def get_current_user (db : DB) (token : Token) (now : Nat) :
    Except HTTPError UserDoc :=
  match decode_access_token token now with
  | none => .error credentialsException
  | some payload =>
    match db.users.find? (fun u => u.username == payload.sub) with
    | none => .error credentialsException
    | some user => .ok user

/-- Embedding of `get_current_active_user`: raise
`HTTPException(400, "Inactive user")` when
`current_user.get("is_active", True)` is false, else return the user
unchanged. (The spec files this rejection under its abstract Forbidden
category; the concrete status code in the source is 400.) -/
def get_current_active_user (current_user : UserDoc) :
    Except HTTPError UserDoc :=
  if !(current_user.is_active.getD true) then
    .error { status := 400, detail := "Inactive user" }
  else .ok current_user

/-- Response of both registration endpoints: the new id and a message. -/
structure UserCreateResponse where
  id : Nat
  message : String
  deriving DecidableEq, Repr

/-- Embedding of `register_user`: reject an already-present username with
400 "Username already taken" and insert nothing; otherwise insert
`{username, password: hash(password), role: "user"}` and return the new
id. -/
def register_user (db : DB) (username password : String) :
    Except HTTPError (UserCreateResponse × DB) :=
  match db.users.find? (fun u => u.username == username) with
  | some _ => .error { status := 400, detail := "Username already taken" }
  | none =>
    let newUser : UserDoc :=
      { _id := db.nextId, username := username,
        password := get_password_hash password, role := "user",
        is_active := none }
    .ok ({ id := db.nextId, message := "User registered successfully" },
      { db with users := db.users ++ [newUser], nextId := db.nextId + 1 })

/-- Embedding of `register_admin`: identical to `register_user` except the
stored role is "admin" and the success message differs. -/
def register_admin (db : DB) (username password : String) :
    Except HTTPError (UserCreateResponse × DB) :=
  match db.users.find? (fun u => u.username == username) with
  | some _ => .error { status := 400, detail := "Username already taken" }
  | none =>
    let newAdmin : UserDoc :=
      { _id := db.nextId, username := username,
        password := get_password_hash password, role := "admin",
        is_active := none }
    .ok ({ id := db.nextId, message := "Admin registered successfully" },
      { db with users := db.users ++ [newAdmin], nextId := db.nextId + 1 })

/-- Response of both login endpoints. -/
structure UserLoginResponse where
  id : Nat
  username : String
  access_token : Token
  token_type : String
  deriving DecidableEq, Repr

/-- Embedding of `login_user`: find the user by username; absent user or
password mismatch both raise 401 "Invalid username or password"; on success
issue a token with `sub = username` and `expires_delta = timedelta(minutes=30)`
(1800 seconds), regardless of the configured default. -/
def login_user (db : DB) (cfgMinutes : Nat) (username password : String)
    (now : Nat) : Except HTTPError UserLoginResponse :=
  match db.users.find? (fun u => u.username == username) with
  | none => .error { status := 401, detail := "Invalid username or password" }
  | some found_user =>
    if !(verify_password password found_user.password) then
      .error { status := 401, detail := "Invalid username or password" }
    else
      .ok { id := found_user._id, username := found_user.username,
            access_token := create_access_token cfgMinutes
              { sub := found_user.username } (some (30 * 60)) now,
            token_type := "bearer" }

/-- Embedding of `login_admin`: identical to `login_user` except the lookup
is `find_one({"username": ..., "role": "admin"})`, so only admin-role
documents can match. -/
def login_admin (db : DB) (cfgMinutes : Nat) (username password : String)
    (now : Nat) : Except HTTPError UserLoginResponse :=
  match db.users.find? (fun u => u.username == username && u.role == "admin") with
  | none => .error { status := 401, detail := "Invalid username or password" }
  | some found_admin =>
    if !(verify_password password found_admin.password) then
      .error { status := 401, detail := "Invalid username or password" }
    else
      .ok { id := found_admin._id, username := found_admin.username,
            access_token := create_access_token cfgMinutes
              { sub := found_admin.username } (some (30 * 60)) now,
            token_type := "bearer" }

/-- Response of the assignment upload endpoint. -/
structure UserAssignmentUploadResponse where
  id : Nat
  message : String
  deriving DecidableEq, Repr

/-- Embedding of `upload_assignment`: `find_one` the document with the given
username; if there is none or its role is not "admin", raise 404 (the source
detail interpolates the name between single quotation marks); otherwise
insert one assignment with owner `current_user._id`, status "pending" and
timestamp `now`, and return its id. -/
def upload_assignment (db : DB) (userId task admin : String)
    (current_user : UserDoc) (now : Nat) :
    Except HTTPError (UserAssignmentUploadResponse × DB) :=
  match db.users.find? (fun u => u.username == admin) with
  | none =>
    .error { status := 404, detail := "Admin " ++ admin ++ " not found." }
  | some adminDoc =>
    if adminDoc.role ≠ "admin" then
      .error { status := 404, detail := "Admin " ++ admin ++ " not found." }
    else
      let newAssignment : AssignmentDoc :=
        { _id := db.nextId, user_id := current_user._id, userId := userId,
          task := task, admin_id := adminDoc._id, admin := admin,
          status := "pending", timestamp := now }
      .ok ({ id := db.nextId, message := "Assignment uploaded successfully" },
        { db with
          assignments := db.assignments ++ [newAssignment]
          nextId := db.nextId + 1 })

/-- One entry of the admin list response: `{id, username}`. -/
structure AdminInfo where
  id : Nat
  username : String
  deriving DecidableEq, Repr

/-- Embedding of `get_admins`: collect all admin-role users; if there are
none raise 404 "No admins found." (not an empty list); otherwise return
their `{id, username}` pairs. -/
def get_admins (db : DB) : Except HTTPError (List AdminInfo) :=
  let admins := db.users.filter (fun u => u.role == "admin")
  if admins.isEmpty then
    .error { status := 404, detail := "No admins found." }
  else
    .ok (admins.map (fun a => { id := a._id, username := a.username }))

/-- One entry of the assignment list response (the boundary projection drops
`user_id` and `admin_id`). -/
structure AssignmentInfo where
  id : Nat
  userId : String
  task : String
  admin : String
  status : String
  timestamp : Nat
  deriving DecidableEq, Repr

/-- The projection applied to each listed assignment document. -/
def assignmentInfo (a : AssignmentDoc) : AssignmentInfo :=
  { id := a._id, userId := a.userId, task := a.task, admin := a.admin,
    status := a.status, timestamp := a.timestamp }

/-- Embedding of `get_assignments_for_admin`: non-admin callers are rejected
with 403. Python `if admin:` is truthiness, so a `None` filter and an empty
string both take the owner branch (match on `admin_id`); a non-empty filter
matches on the denormalized `admin` username. Both queries are
`find(..).to_list(length=100)`, hence `take 100`. -/
def get_assignments_for_admin (db : DB) (current_user : UserDoc)
    (admin : Option String) : Except HTTPError (List AssignmentInfo) :=
  if current_user.role ≠ "admin" then
    .error { status := 403, detail := "Not authorized to admin" }
  else
    let ownerQueue :=
      ((db.assignments.filter (fun x => x.admin_id == current_user._id)).take 100).map
        assignmentInfo
    match admin with
    | some a =>
      if a ≠ "" then
        .ok (((db.assignments.filter (fun x => x.admin == a)).take 100).map
          assignmentInfo)
      else .ok ownerQueue
    | none => .ok ownerQueue

/-- Hexadecimal-digit test used by the ObjectId model. -/
def isHexDigit (c : Char) : Bool :=
  c.isDigit || ("a" ≤ c.toString && c.toString ≤ "f")
    || ("A" ≤ c.toString && c.toString ≤ "F")

/-- Value of a hexadecimal digit. -/
def hexDigitVal (c : Char) : Nat :=
  if c.isDigit then c.toNat - 48
  else if "a" ≤ c.toString then c.toNat - 87
  else c.toNat - 55

/-- Model of BSON `ObjectId(s)`: accepts exactly 24-character hexadecimal
strings, decoded to the numeric store id; any other string raises
`InvalidId` (here: `none`). -/
def parseObjectId (s : String) : Option Nat :=
  if s.length == 24 && s.data.all isHexDigit then
    some (s.data.foldl (fun n c => n * 16 + hexDigitVal c) 0)
  else none

/-- Effect of `update_one({"_id": oid}, {"$set": {"status": st}})`: the
first document whose `_id` matches gets its status overwritten. -/
def setStatusFirst (oid : Nat) (st : String) :
    List AssignmentDoc → List AssignmentDoc
  | [] => []
  | a :: rest =>
    if a._id == oid then { a with status := st } :: rest
    else a :: setStatusFirst oid st rest

/-- Response of the status-update endpoint. -/
structure AssignmentUpdateResponse where
  message : String
  deriving DecidableEq, Repr

/-- Embedding of `update_assignment_status`: non-admin callers are rejected
with 403 before anything is touched; a malformed id raises 400; an id
matching no assignment raises 404 (the `matched_count == 0` check, with
nothing written); otherwise the matched status field is overwritten
unconditionally with the given string. -/
def update_assignment_status (db : DB) (assignment_id newStatus : String)
    (current_user : UserDoc) :
    Except HTTPError (AssignmentUpdateResponse × DB) :=
  if current_user.role ≠ "admin" then
    .error { status := 403, detail := "Not authorized to accept assignments." }
  else
    match parseObjectId assignment_id with
    | none => .error { status := 400, detail := "Invalid assignment ID." }
    | some oid =>
      if db.assignments.any (fun a => a._id == oid) then
        .ok ({ message := "Assignment status updated successfully" },
          { db with assignments := setStatusFirst oid newStatus db.assignments })
      else .error { status := 404, detail := "Assignment not found." }

/-!
Helper lemmas about lookups in the users collection.
-/

/-- Usernames are pairwise distinct in the collection. The sequential flows
preserve this (registration refuses an existing username); the spec notes it
can only break under concurrent registration, outside this embedding. -/
def usernamesNodup (l : List UserDoc) : Prop :=
  (l.map (fun u => u.username)).Nodup

instance (l : List UserDoc) : Decidable (usernamesNodup l) := by
  unfold usernamesNodup; infer_instance

/-- If no document satisfies the predicate, `find?` returns none. -/
theorem find?_none_of_forall {l : List UserDoc} {p : UserDoc → Bool}
    (h : ∀ u ∈ l, ¬ p u) : l.find? p = none :=
  List.find?_eq_none.mpr h

/-- With pairwise-distinct usernames, a `find?` whose predicate pins the
username down returns the (unique) member carrying that username. -/
theorem find?_of_usernamesNodup {l : List UserDoc} {p : UserDoc → Bool}
    {u : UserDoc} (hnd : usernamesNodup l) (hu : u ∈ l) (hpu : p u = true)
    (hkey : ∀ v, p v = true → v.username = u.username) :
    l.find? p = some u := by
  induction l with
  | nil => cases hu
  | cons w rest ih =>
    unfold usernamesNodup at hnd
    rw [List.map_cons, List.nodup_cons] at hnd
    by_cases hw : p w
    · rw [List.find?_cons_of_pos _ hw]
      rcases List.mem_cons.mp hu with h | h
      · rw [h]
      · exact absurd (hkey w hw ▸ List.mem_map_of_mem (fun v => v.username) h)
          hnd.1
    · rw [List.find?_cons_of_neg _ hw]
      rcases List.mem_cons.mp hu with h | h
      · exact absurd (h ▸ hpu) (by simpa using hw)
      · exact ih hnd.2 h

/-!
Claim theorems.
-/

/-- C1: a resolved caller whose `is_active` flag is false is rejected by the
active-user check with the error the spec labels Forbidden, carrying the
detail "Inactive user" (status 400 in the source); any other caller is
returned unchanged. -/
theorem active_check_spec (u : UserDoc) :
    (u.is_active = some false →
      get_current_active_user u =
        .error { status := 400, detail := "Inactive user" }) ∧
    (u.is_active ≠ some false → get_current_active_user u = .ok u) := by
  constructor
  · intro h
    simp [get_current_active_user, h]
  · intro h
    unfold get_current_active_user
    match hia : u.is_active with
    | none => simp
    | some true => simp
    | some false => exact absurd hia h

/-- C1 witness: a concrete inactive caller is rejected with "Inactive user",
and a concrete caller without the flag passes through unchanged. -/
theorem active_check_spec_witness :
    get_current_active_user
        { _id := 3, username := "carol", password := "h", role := "user",
          is_active := some false } =
      .error { status := 400, detail := "Inactive user" } ∧
    get_current_active_user
        { _id := 4, username := "dave", password := "h", role := "user",
          is_active := none } =
      .ok { _id := 4, username := "dave", password := "h", role := "user",
            is_active := none } :=
  ⟨(active_check_spec _).1 rfl, (active_check_spec _).2 (by simp)⟩

/-- C2: with the username already present in the store, both registration
variants fail with the duplicate-username error (400 "Username already
taken", the error the spec labels Conflict) and insert nothing; with a fresh
username each hashes the password, stores its fixed role ("user" or
"admin"), and returns the new id. -/
theorem register_conflict_spec (db : DB) (username password : String) :
    ((∃ u ∈ db.users, u.username = username) →
      register_user db username password =
        .error { status := 400, detail := "Username already taken" } ∧
      register_admin db username password =
        .error { status := 400, detail := "Username already taken" }) ∧
    ((∀ u ∈ db.users, u.username ≠ username) →
      register_user db username password =
        .ok ({ id := db.nextId, message := "User registered successfully" },
          { db with
            users := db.users ++
              [{ _id := db.nextId, username := username,
                 password := get_password_hash password, role := "user",
                 is_active := none }]
            nextId := db.nextId + 1 }) ∧
      register_admin db username password =
        .ok ({ id := db.nextId, message := "Admin registered successfully" },
          { db with
            users := db.users ++
              [{ _id := db.nextId, username := username,
                 password := get_password_hash password, role := "admin",
                 is_active := none }]
            nextId := db.nextId + 1 })) := by
  constructor
  · rintro ⟨u, hu, hname⟩
    have hfind : db.users.find? (fun v => v.username == username) ≠ none := by
      intro heq
      have hcontra := List.find?_eq_none.mp heq u hu
      simp [hname] at hcontra
    match hf : db.users.find? (fun v => v.username == username) with
    | none => exact absurd hf hfind
    | some w =>
      constructor
      · unfold register_user
        rw [hf]
      · unfold register_admin
        rw [hf]
  · intro h
    have hfind : db.users.find? (fun v => v.username == username) = none :=
      find?_none_of_forall (by intro u hu; simp [h u hu])
    constructor
    · unfold register_user
      rw [hfind]
    · unfold register_admin
      rw [hfind]

/-- A concrete admin document used by the witnesses. -/
def aliceW : UserDoc :=
  { _id := 0, username := "alice", password := get_password_hash "pw",
    role := "admin", is_active := none }

/-- A concrete user document used by the witnesses. -/
def bobW : UserDoc :=
  { _id := 1, username := "bob", password := get_password_hash "bp",
    role := "user", is_active := none }

/-- A concrete assignment document used by the witnesses. -/
def taskW : AssignmentDoc :=
  { _id := 5, user_id := 1, userId := "u9", task := "t9", admin_id := 0,
    admin := "alice", status := "pending", timestamp := 3 }

/-- A concrete store used by the witnesses: one admin, one user, one
assignment. -/
def dbW : DB :=
  { users := [aliceW, bobW], assignments := [taskW], nextId := 6 }

/-- C2 witness: registering the taken username "alice" fails with the
duplicate error, and registering the fresh "carol" as admin succeeds with
the next id. -/
theorem register_conflict_spec_witness :
    register_user dbW "alice" "x" =
      .error { status := 400, detail := "Username already taken" } ∧
    register_admin dbW "carol" "x" =
      .ok ({ id := 6, message := "Admin registered successfully" },
        { dbW with
          users := dbW.users ++
            [{ _id := 6, username := "carol",
               password := get_password_hash "x", role := "admin",
               is_active := none }]
          nextId := 7 }) :=
  ⟨((register_conflict_spec dbW "alice" "x").1
      ⟨aliceW, by simp [dbW], rfl⟩).1,
   ((register_conflict_spec dbW "carol" "x").2 (by decide)).2⟩

/-- C3: any token that is expired or whose signature fails makes
`decode_access_token` return the invalid sentinel `none` (an `Option`, never
an exception), and the access guard maps either failure to the identical
Unauthorized outcome `credentials_exception` (401, "Could not validate
credentials"). -/
theorem token_failure_collapse_spec (tok : Token) (now : Nat) (db : DB)
    (h : tok.sig_ok = false ∨ tok.exp ≤ now) :
    decode_access_token tok now = none ∧
    get_current_user db tok now = .error credentialsException := by
  have hd : decode_access_token tok now = none := by
    unfold decode_access_token
    rcases h with h | h
    · simp [h]
    · by_cases hs : tok.sig_ok = false <;> simp [hs, h]
  refine ⟨hd, ?_⟩
  unfold get_current_user
  rw [hd]

/-- C3 witness: a concrete token expired at the current instant and a
concrete tampered token are both decoded to `none` and produce the same
Unauthorized error from the guard. -/
theorem token_failure_collapse_spec_witness :
    decode_access_token
        { payload := { sub := "alice" }, exp := 50, sig_ok := true } 50 =
      none ∧
    get_current_user dbW
        { payload := { sub := "alice" }, exp := 50, sig_ok := true } 50 =
      .error credentialsException ∧
    decode_access_token
        { payload := { sub := "alice" }, exp := 99, sig_ok := false } 50 =
      none ∧
    get_current_user dbW
        { payload := { sub := "alice" }, exp := 99, sig_ok := false } 50 =
      .error credentialsException := by
  have h1 := token_failure_collapse_spec
    { payload := { sub := "alice" }, exp := 50, sig_ok := true } 50 dbW
    (Or.inr (by decide))
  have h2 := token_failure_collapse_spec
    { payload := { sub := "alice" }, exp := 99, sig_ok := false } 50 dbW
    (Or.inl rfl)
  exact ⟨h1.1, h1.2, h2.1, h2.2⟩

/-- C4: admin login authenticates only admin-role accounts. With distinct
usernames, for every stored user-role account admin login under that
username fails Unauthorized for every supplied password (in particular the
correct one), while a stored admin whose password verifies succeeds and is
issued a 30-minute token. -/
theorem admin_login_role_scope_spec (db : DB) (cfgMinutes now : Nat)
    (hnd : usernamesNodup db.users) :
    (∀ u ∈ db.users, u.role = "user" → ∀ p,
      login_admin db cfgMinutes u.username p now =
        .error { status := 401, detail := "Invalid username or password" }) ∧
    (∀ a ∈ db.users, a.role = "admin" → ∀ p,
      verify_password p a.password = true →
      login_admin db cfgMinutes a.username p now =
        .ok { id := a._id, username := a.username,
              access_token := create_access_token cfgMinutes
                { sub := a.username } (some (30 * 60)) now,
              token_type := "bearer" }) := by
  constructor
  · intro u hu hrole p
    have hfind :
        db.users.find? (fun v => v.username == u.username && v.role == "admin")
          = none := by
      apply find?_none_of_forall
      intro v hv
      simp only [Bool.and_eq_true, beq_iff_eq, not_and]
      intro hname
      have hvu : v = u := List.inj_on_of_nodup_map hnd hv hu hname
      rw [hvu, hrole]
      decide
    unfold login_admin
    rw [hfind]
  · intro a ha hrole p hverify
    have hfind :
        db.users.find? (fun v => v.username == a.username && v.role == "admin")
          = some a := by
      apply find?_of_usernamesNodup hnd ha
      · simp [hrole]
      · intro v hv
        simp only [Bool.and_eq_true, beq_iff_eq] at hv
        exact hv.1
    unfold login_admin
    rw [hfind]
    simp [hverify]

/-- C4 witness: in the concrete store, admin login as the user-role "bob"
with the correct password fails 401, while admin login as "alice" with the
correct password succeeds. -/
theorem admin_login_role_scope_spec_witness :
    login_admin dbW 15 "bob" "bp" 100 =
      .error { status := 401, detail := "Invalid username or password" } ∧
    login_admin dbW 15 "alice" "pw" 100 =
      .ok { id := 0, username := "alice",
            access_token := create_access_token 15
              { sub := "alice" } (some (30 * 60)) 100,
            token_type := "bearer" } := by
  have h := admin_login_role_scope_spec dbW 15 100 (by decide)
  exact ⟨h.1 bobW (by simp [dbW]) rfl "bp",
    h.2 aliceW (by simp [dbW]) rfl "pw" (by decide)⟩

/-- Overwriting the first matching document makes the lookup under the same
id return it with the new status, whatever its prior status was. -/
theorem setStatusFirst_find? (oid : Nat) (st : String)
    (l : List AssignmentDoc) (a : AssignmentDoc)
    (h : l.find? (fun x : AssignmentDoc => x._id == oid) = some a) :
    (setStatusFirst oid st l).find? (fun x : AssignmentDoc => x._id == oid) =
      some { a with status := st } := by
  induction l with
  | nil => simp [List.find?] at h
  | cons b rest ih =>
    by_cases hb : (b._id == oid) = true
    · rw [@List.find?_cons_of_pos _ (fun x : AssignmentDoc => x._id == oid) b rest hb] at h
      injection h with h
      subst h
      unfold setStatusFirst
      rw [if_pos hb]
      exact @List.find?_cons_of_pos _ (fun x : AssignmentDoc => x._id == oid) _ _ hb
    · rw [@List.find?_cons_of_neg _ (fun x : AssignmentDoc => x._id == oid) b rest hb] at h
      unfold setStatusFirst
      rw [if_neg hb,
        @List.find?_cons_of_neg _ (fun x : AssignmentDoc => x._id == oid) b _ hb]
      exact ih h

/-- C5: a non-admin caller is rejected with 403 before anything is written
(the error result carries no updated store), while an admin caller with a
well-formed id matching a stored assignment gets the status field of the
first matching document overwritten unconditionally: for any prior contents
the new store is `setStatusFirst`, and the matched document afterwards
carries exactly the supplied status string. -/
theorem assignment_status_update_spec (db : DB) (current_user : UserDoc) :
    (current_user.role ≠ "admin" → ∀ idStr st,
      update_assignment_status db idStr st current_user =
        .error { status := 403,
                 detail := "Not authorized to accept assignments." }) ∧
    (current_user.role = "admin" → ∀ idStr oid st,
      parseObjectId idStr = some oid →
      (∃ a ∈ db.assignments, a._id = oid) →
      update_assignment_status db idStr st current_user =
        .ok ({ message := "Assignment status updated successfully" },
          { db with assignments := setStatusFirst oid st db.assignments }) ∧
      ∀ a, db.assignments.find? (fun x : AssignmentDoc => x._id == oid) = some a →
        (setStatusFirst oid st db.assignments).find? (fun x : AssignmentDoc => x._id == oid)
          = some { a with status := st }) := by
  constructor
  · intro h idStr st
    unfold update_assignment_status
    rw [if_pos h]
  · rintro h idStr oid st hparse ⟨a, ha, haid⟩
    refine ⟨?_, fun b hb => setStatusFirst_find? oid st _ b hb⟩
    unfold update_assignment_status
    rw [if_neg (not_not_intro h), hparse]
    have hany : db.assignments.any (fun x : AssignmentDoc => x._id == oid) = true :=
      List.any_eq_true.mpr ⟨a, ha, by simp [haid]⟩
    simp [hany]

/-- C5 witness: the user-role caller is rejected with 403, and the admin
caller overwrites the status of the stored assignment with id 5. -/
theorem assignment_status_update_spec_witness :
    update_assignment_status dbW "000000000000000000000005" "accepted" bobW =
      .error { status := 403,
               detail := "Not authorized to accept assignments." } ∧
    update_assignment_status dbW "000000000000000000000005" "accepted" aliceW
      = .ok ({ message := "Assignment status updated successfully" },
        { dbW with
          assignments := setStatusFirst 5 "accepted" dbW.assignments }) := by
  have h1 := assignment_status_update_spec dbW bobW
  have h2 := assignment_status_update_spec dbW aliceW
  exact ⟨h1.1 (by decide) "000000000000000000000005" "accepted",
    (h2.2 rfl "000000000000000000000005" 5 "accepted" rfl
      ⟨taskW, by simp [dbW], rfl⟩).1⟩

/-- C6: when no stored user with role "admin" carries the given admin
username, the upload fails 404 and creates nothing (the error result carries
no updated store); when, under distinct usernames, such an admin exists, the
upload inserts exactly one assignment with status "pending", timestamp set
to the current time, owner `user_id` set to the store id of the caller, and
the admin name and id denormalized from the matched admin. -/
theorem upload_assignment_admin_check_spec (db : DB)
    (uid task adminName : String) (caller : UserDoc) (now : Nat) :
    ((∀ u ∈ db.users, ¬(u.username = adminName ∧ u.role = "admin")) →
      upload_assignment db uid task adminName caller now =
        .error { status := 404,
                 detail := "Admin " ++ adminName ++ " not found." }) ∧
    (usernamesNodup db.users →
      ∀ adm ∈ db.users, adm.username = adminName → adm.role = "admin" →
      upload_assignment db uid task adminName caller now =
        .ok ({ id := db.nextId, message := "Assignment uploaded successfully" },
          { db with
            assignments := db.assignments ++
              [{ _id := db.nextId, user_id := caller._id, userId := uid,
                 task := task, admin_id := adm._id, admin := adminName,
                 status := "pending", timestamp := now }]
            nextId := db.nextId + 1 })) := by
  constructor
  · intro h
    cases hf : db.users.find? (fun u => u.username == adminName) with
    | none =>
      unfold upload_assignment
      rw [hf]
    | some w =>
      have hw : w.username = adminName := by
        have := List.find?_some hf
        simpa using this
      have hmem := List.mem_of_find?_eq_some hf
      have hrole : w.role ≠ "admin" := fun hr => h w hmem ⟨hw, hr⟩
      unfold upload_assignment
      rw [hf]
      simp [hrole]
  · intro hnd adm hadm hname hrole
    have hfind : db.users.find? (fun u => u.username == adminName)
        = some adm := by
      apply find?_of_usernamesNodup hnd hadm
      · simp [hname]
      · intro v hv
        simp only [beq_iff_eq] at hv
        rw [hv, hname]
    unfold upload_assignment
    rw [hfind]
    simp [hrole]

/-- C6 witness: uploading to the username "bob" (present but not an admin)
fails 404 at the concrete store, while uploading to the admin "alice"
inserts the single pending assignment owned by the caller. -/
theorem upload_assignment_admin_check_spec_witness :
    upload_assignment dbW "u1" "t1" "bob" bobW 7 =
      .error { status := 404, detail := "Admin " ++ "bob" ++ " not found." } ∧
    upload_assignment dbW "u1" "t1" "alice" bobW 7 =
      .ok ({ id := 6, message := "Assignment uploaded successfully" },
        { dbW with
          assignments := dbW.assignments ++
            [{ _id := 6, user_id := 1, userId := "u1", task := "t1",
               admin_id := 0, admin := "alice", status := "pending",
               timestamp := 7 }]
          nextId := 7 }) := by
  have h1 := upload_assignment_admin_check_spec dbW "u1" "t1" "bob" bobW 7
  have h2 := upload_assignment_admin_check_spec dbW "u1" "t1" "alice" bobW 7
  exact ⟨h1.1 (by decide),
    h2.2 (by decide) aliceW (by simp [dbW]) rfl rfl⟩

/-- C7: listing admins fails 404 "No admins found." exactly when the store
holds no admin-role user (rather than returning an empty list), and
otherwise returns every admin-role user as an {id, username} pair. -/
theorem list_admins_spec (db : DB) :
    ((∀ u ∈ db.users, u.role ≠ "admin") →
      get_admins db = .error { status := 404, detail := "No admins found." }) ∧
    ((∃ u ∈ db.users, u.role = "admin") →
      get_admins db =
        .ok ((db.users.filter (fun u => u.role == "admin")).map
          (fun a => { id := a._id, username := a.username }))) := by
  constructor
  · intro h
    have hfil : db.users.filter (fun u => u.role == "admin") = [] :=
      List.filter_eq_nil_iff.mpr (by intro u hu; simp [h u hu])
    unfold get_admins
    simp [hfil]
  · rintro ⟨u, hu, hrole⟩
    have hfil : db.users.filter (fun u => u.role == "admin") ≠ [] := by
      intro heq
      have hmem : u ∈ db.users.filter (fun u => u.role == "admin") :=
        List.mem_filter.mpr ⟨hu, by simp [hrole]⟩
      rw [heq] at hmem
      cases hmem
    unfold get_admins
    rw [if_neg (by simpa [List.isEmpty_iff] using hfil)]

/-- C7 witness: a store whose only account is a user-role document yields
the 404, and the concrete mixed store lists exactly its one admin. -/
theorem list_admins_spec_witness :
    get_admins { users := [bobW], assignments := [], nextId := 2 } =
      .error { status := 404, detail := "No admins found." } ∧
    get_admins dbW = .ok [{ id := 0, username := "alice" }] := by
  have h1 := list_admins_spec { users := [bobW], assignments := [], nextId := 2 }
  have h2 := list_admins_spec dbW
  refine ⟨h1.1 (by decide), ?_⟩
  have := h2.2 ⟨aliceW, by simp [dbW], rfl⟩
  rw [this]
  rfl

/-- A stored assignment whose denormalized admin username is the empty
string and whose admin id differs from the id of `aliceW`. -/
def strayW : AssignmentDoc :=
  { _id := 9, user_id := 1, userId := "u2", task := "t2", admin_id := 2,
    admin := "", status := "pending", timestamp := 4 }

/-- A store for the C8 counterexample: one admin and one stray assignment. -/
def dbStray : DB :=
  { users := [aliceW], assignments := [strayW], nextId := 10 }

/-- C8 counterexample: the filter is given (as the empty string), yet the
code returns the queue of the caller (empty here) instead of the stored
assignment whose denormalized admin username equals the filter, because
Python truthiness sends an empty filter down the owner branch. -/
theorem list_assignments_filter_claim_cex :
    get_assignments_for_admin dbStray aliceW (some "") = .ok [] ∧
    dbStray.assignments.filter (fun x => x.admin == "") = [strayW] := by
  constructor <;> rfl

/-- C8 amended: for an admin caller, a non-empty admin filter returns the
first at most 100 stored assignments whose denormalized admin username
equals the filter, independent of which admin the caller is; an absent or
empty-string filter returns the first at most 100 assignments whose
admin_id equals the store id of the caller. -/
theorem list_assignments_filter_amended_spec (db : DB) (caller : UserDoc)
    (h : caller.role = "admin") :
    (∀ a : String, a ≠ "" →
      get_assignments_for_admin db caller (some a) =
        .ok (((db.assignments.filter (fun x => x.admin == a)).take 100).map
          assignmentInfo)) ∧
    (∀ filt : Option String, (∀ a, filt = some a → a = "") →
      get_assignments_for_admin db caller filt =
        .ok (((db.assignments.filter
            (fun x => x.admin_id == caller._id)).take 100).map
          assignmentInfo)) := by
  constructor
  · intro a ha
    unfold get_assignments_for_admin
    rw [if_neg (not_not_intro h)]
    simp [ha]
  · intro filt hfilt
    unfold get_assignments_for_admin
    rw [if_neg (not_not_intro h)]
    cases filt with
    | none => rfl
    | some a =>
      have ha := hfilt a rfl
      subst ha
      simp

/-- C8 amended witness: at the concrete store the filter "alice" and the
absent filter both yield the single stored assignment of alice. -/
theorem list_assignments_filter_amended_spec_witness :
    get_assignments_for_admin dbW aliceW (some "alice") =
      .ok [assignmentInfo taskW] ∧
    get_assignments_for_admin dbW aliceW none =
      .ok [assignmentInfo taskW] := by
  have h := list_assignments_filter_amended_spec dbW aliceW rfl
  exact ⟨(h.1 "alice" (by decide)).trans rfl,
    (h.2 none (by intro a ha; cases ha)).trans rfl⟩

/-- C9: with distinct usernames, login of a stored account with a verifying
password succeeds and issues a token whose expiry is exactly 30 minutes
(1800 seconds) after issuance — for every configured default lifetime
`cfgMinutes`, which does not occur in the result — and the token decodes at
issuance time to a sub claim equal to the login username; a password that
does not verify fails 401. -/
theorem login_token_lifetime_spec (db : DB) (cfgMinutes now : Nat)
    (hnd : usernamesNodup db.users) :
    (∀ u ∈ db.users, ∀ p, verify_password p u.password = true →
      login_user db cfgMinutes u.username p now =
        .ok { id := u._id, username := u.username,
              access_token :=
                { payload := { sub := u.username }, exp := now + 30 * 60,
                  sig_ok := true },
              token_type := "bearer" } ∧
      decode_access_token
          { payload := { sub := u.username }, exp := now + 30 * 60,
            sig_ok := true } now = some { sub := u.username }) ∧
    (∀ u ∈ db.users, ∀ p, verify_password p u.password = false →
      login_user db cfgMinutes u.username p now =
        .error { status := 401, detail := "Invalid username or password" }) := by
  have hfind : ∀ u ∈ db.users,
      db.users.find? (fun v => v.username == u.username) = some u := by
    intro u hu
    apply find?_of_usernamesNodup hnd hu
    · simp
    · intro v hv
      simpa using hv
  constructor
  · intro u hu p hverify
    constructor
    · unfold login_user
      rw [hfind u hu]
      simp [hverify, create_access_token]
    · unfold decode_access_token
      have h30 : ¬ (now + 30 * 60 ≤ now) := by omega
      simp [h30]
  · intro u hu p hverify
    unfold login_user
    rw [hfind u hu]
    simp [hverify]

/-- C9 witness: at the concrete store, the stored user "bob" logs in with
the correct password under a configured default of 15 minutes and receives
a token expiring 1800 seconds after issuance that decodes to sub "bob";
the wrong password fails 401. -/
theorem login_token_lifetime_spec_witness :
    login_user dbW 15 "bob" "bp" 100 =
      .ok { id := 1, username := "bob",
            access_token :=
              { payload := { sub := "bob" }, exp := 100 + 30 * 60,
                sig_ok := true },
            token_type := "bearer" } ∧
    decode_access_token
        { payload := { sub := "bob" }, exp := 100 + 30 * 60,
          sig_ok := true } 100 = some { sub := "bob" } ∧
    login_user dbW 15 "bob" "wrong" 100 =
      .error { status := 401, detail := "Invalid username or password" } := by
  have h := login_token_lifetime_spec dbW 15 100 (by decide)
  have h1 := h.1 bobW (by simp [dbW]) "bp" (by decide)
  exact ⟨h1.1, h1.2, h.2 bobW (by simp [dbW]) "wrong" (by decide)⟩

/-- The document inserted by a fresh user-role registration of "carol" at
the concrete store. -/
def carolUserDoc : UserDoc :=
  { _id := 6, username := "carol", password := get_password_hash "x",
    role := "user", is_active := none }

/-- C10: the active check treats any document without an is_active field as
active, and a document created by either registration variant over a fresh
username carries exactly username, hashed password and its fixed role with
no is_active field, so it passes the active check. -/
theorem registration_active_default_spec (db : DB)
    (username password : String)
    (hfresh : ∀ u ∈ db.users, u.username ≠ username) :
    (∀ u : UserDoc, u.is_active = none → get_current_active_user u = .ok u) ∧
    (register_user db username password =
      .ok ({ id := db.nextId, message := "User registered successfully" },
        { db with
          users := db.users ++
            [{ _id := db.nextId, username := username,
               password := get_password_hash password, role := "user",
               is_active := none }]
          nextId := db.nextId + 1 }) ∧
      get_current_active_user
          { _id := db.nextId, username := username,
            password := get_password_hash password, role := "user",
            is_active := none } =
        .ok { _id := db.nextId, username := username,
              password := get_password_hash password, role := "user",
              is_active := none }) ∧
    (register_admin db username password =
      .ok ({ id := db.nextId, message := "Admin registered successfully" },
        { db with
          users := db.users ++
            [{ _id := db.nextId, username := username,
               password := get_password_hash password, role := "admin",
               is_active := none }]
          nextId := db.nextId + 1 }) ∧
      get_current_active_user
          { _id := db.nextId, username := username,
            password := get_password_hash password, role := "admin",
            is_active := none } =
        .ok { _id := db.nextId, username := username,
              password := get_password_hash password, role := "admin",
              is_active := none }) := by
  have hgen : ∀ u : UserDoc, u.is_active = none →
      get_current_active_user u = .ok u := by
    intro u hu
    unfold get_current_active_user
    simp [hu]
  have hfind : db.users.find? (fun v => v.username == username) = none :=
    find?_none_of_forall (by intro u hu; simp [hfresh u hu])
  refine ⟨hgen, ⟨?_, hgen _ rfl⟩, ⟨?_, hgen _ rfl⟩⟩
  · unfold register_user
    rw [hfind]
  · unfold register_admin
    rw [hfind]

/-- C10 witness: registering the fresh "carol" at the concrete store
produces the document with no is_active field, and that document passes the
active check. -/
theorem registration_active_default_spec_witness :
    register_user dbW "carol" "x" =
      .ok ({ id := 6, message := "User registered successfully" },
        { dbW with users := dbW.users ++ [carolUserDoc], nextId := 7 }) ∧
    carolUserDoc.is_active = none ∧
    get_current_active_user carolUserDoc = .ok carolUserDoc := by
  have h := registration_active_default_spec dbW "carol" "x" (by decide)
  exact ⟨(h.2.1).1.trans rfl, rfl, h.1 carolUserDoc rfl⟩
